import Mathlib

/-!
Verification of the Flowlytix subscription server's pagination endpoint and
lifecycle manager, as implemented in `src/subscription-server/main_fixed.py`
(and the identical `lifespan` logic in `src/subscription-server/main.py`).

The pagination endpoint `get_subscriptions_paginated` is a pure function of
its four query parameters over a fixed, deterministically generated list of
200 mock subscription records; we embed the record generator, the status and
search filters, and the slice-based pagination directly from the Python
source.  The lifecycle manager `lifespan` is embedded as a function of the
outcomes of its two external collaborators (`init_database`,
`close_database`), which live outside this repository.
-/

namespace Flowlytix

/-- Left-pads the decimal representation of `n` with zeros to width `w`,
matching Python's format specifier `{n:0wd}` for non-negative `n`. -/
def zfill (w : Nat) (n : Nat) : String :=
  let s := toString n
  String.mk (List.replicate (w - s.length) '0') ++ s

/-- `listIsPrefixOf needle hay` : `needle` is an initial segment of `hay`. -/
def listIsPrefixOf : List Char → List Char → Bool
  | [], _ => true
  | _ :: _, [] => false
  | a :: as, b :: bs => a == b && listIsPrefixOf as bs

/-- `listHasSubstring needle hay` : `needle` occurs contiguously in `hay`. -/
def listHasSubstring (needle : List Char) : List Char → Bool
  | [] => needle.isEmpty
  | c :: cs => listIsPrefixOf needle (c :: cs) || listHasSubstring needle cs

/-- `strContains hay needle` embeds Python's substring test
`needle in hay` on strings. -/
def strContains (hay needle : String) : Bool :=
  listHasSubstring needle.data hay.data

/-- Character-wise lowercasing, embedding Python's `str.lower()` (all data in
this program is ASCII, where `Char.toLower` agrees with Python). -/
def strLower (s : String) : String :=
  String.mk (s.data.map Char.toLower)

/-- One mock subscription record, with the fields produced by the dict
literal in `get_subscriptions_paginated` (main_fixed.py lines 230-248). -/
structure SubscriptionRecord where
  id : String
  customerName : String
  customerId : String
  licenseKey : String
  tier : String
  status : String
  features : List String
  maxDevices : Nat
  devicesConnected : Nat
  startsAt : String
  expiresAt : String
  gracePeriodDays : Nat
  lastActivity : String
  lastSyncAt : String
  createdAt : String
  updatedAt : String
  notes : String
deriving Repr, DecidableEq

/-- The record generated for loop index `i` in the comprehension of
main_fixed.py lines 229-250, one field per dict entry. -/
def mkMockSubscription (i : Nat) : SubscriptionRecord :=
  { id := toString i
    customerName := "Customer " ++ toString i
    customerId := "cust_" ++ toString i
    licenseKey := "FL-" ++ zfill 4 i ++ "-" ++ zfill 4 (i * 2) ++ "-" ++ zfill 4 (i * 3)
    tier := if i % 3 = 0 then "premium" else if i % 2 = 0 then "basic" else "pro"
    status := if i % 4 ≠ 0 then "active" else if i % 6 = 0 then "expired" else "suspended"
    features := if i % 2 = 0 then ["core", "analytics"] else ["core"]
    maxDevices := if i % 3 = 0 then 5 else 3
    devicesConnected := i % 5 + 1
    startsAt := "2024-01-" ++ zfill 2 (15 + i % 15) ++ "T10:00:00Z"
    expiresAt := "2024-12-" ++ zfill 2 (15 + i % 15) ++ "T10:00:00Z"
    gracePeriodDays := 30
    lastActivity := "2024-01-" ++ zfill 2 (20 + i % 10) ++ "T14:30:00Z"
    lastSyncAt := "2024-01-" ++ zfill 2 (20 + i % 10) ++ "T14:30:00Z"
    createdAt := "2024-01-" ++ zfill 2 (15 + i % 15) ++ "T10:00:00Z"
    updatedAt := "2024-01-" ++ zfill 2 (20 + i % 10) ++ "T14:30:00Z"
    notes := "Test subscription " ++ toString i }

/-- The fixed candidate set: `[... for i in range(1, 201)]`, 200 records. -/
def mock_subscriptions : List SubscriptionRecord :=
  (List.range 200).map (fun k => mkMockSubscription (k + 1))

/-- `if status: filtered = [s for s in filtered if s["status"] == status]`
(main_fixed.py lines 255-256).  A Python string argument is truthy exactly
when it is non-empty; an absent argument is `None`, which is falsy. -/
def applyStatusFilter (status : Option String) (l : List SubscriptionRecord) :
    List SubscriptionRecord :=
  match status with
  | none => l
  | some st => if st = "" then l else l.filter (fun r => r.status == st)

/-- `if search: filtered = [s for s in filtered if search.lower() in
s["customerName"].lower() or search.lower() in s["licenseKey"].lower()]`
(main_fixed.py lines 258-262). -/
def applySearchFilter (search : Option String) (l : List SubscriptionRecord) :
    List SubscriptionRecord :=
  match search with
  | none => l
  | some q =>
    if q = "" then l
    else l.filter (fun r =>
      strContains (strLower r.customerName) (strLower q) ||
      strContains (strLower r.licenseKey) (strLower q))

/-- The filtered candidate set: status filter, then search filter
(main_fixed.py lines 252-262). -/
def filteredSubscriptions (status search : Option String) : List SubscriptionRecord :=
  applySearchFilter search (applyStatusFilter status mock_subscriptions)

/-- The inner pagination payload returned under the `data` key
(main_fixed.py lines 275-281). -/
structure PagedData where
  data : List SubscriptionRecord
  totalCount : Nat
  page : Nat
  pageSize : Nat
  totalPages : Nat
deriving Repr, DecidableEq

/-- The response envelope `{success, data, message}`
(main_fixed.py lines 273-283). -/
structure SubscriptionsResponse where
  success : Bool
  data : PagedData
  message : String
deriving Repr, DecidableEq

/-- The endpoint `get_subscriptions_paginated` (main_fixed.py lines
218-283).  FastAPI's query validation (`page ≥ 1`, `1 ≤ page_size ≤ 100`)
happens at the HTTP boundary, so theorems about validated calls carry those
bounds as hypotheses.  `total_pages = (total_items + page_size - 1) //
page_size`, `start_index = (page - 1) * page_size`, and the Python slice
`filtered[start:start + page_size]` is `(filtered.drop start).take
page_size`. -/
def get_subscriptions_paginated (page page_size : Nat)
    (status search : Option String) : SubscriptionsResponse :=
  let filtered := filteredSubscriptions status search
  let total_items := filtered.length
  let total_pages := (total_items + page_size - 1) / page_size
  let start_index := (page - 1) * page_size
  let paginated := (filtered.drop start_index).take page_size
  { success := true
    data :=
      { data := paginated
        totalCount := total_items
        page := page
        pageSize := page_size
        totalPages := total_pages }
    message := "Retrieved " ++ toString paginated.length ++ " subscriptions" }

/-- The application lifespan manager (main_fixed.py lines 38-71; the
`lifespan` in main.py lines 27-64 has the same control flow).  The external
collaborators `init_database` and `close_database` (from `app.core.database`,
which is outside this repository) are modelled by their outcomes:
`Except.ok ()` for normal return, `Except.error e` for a raised exception.
The result is `Except.error e` when the startup exception `e` propagates out
(the handler logs and re-raises with a bare `raise`), and `Except.ok logged`
when the lifespan runs to completion, with `logged` recording a shutdown
exception that was caught and logged but not propagated. -/
def lifespan (ε : Type) (init_database close_database : Except ε Unit) :
    Except ε (Option ε) :=
  match init_database with
  | Except.error e => Except.error e
  | Except.ok _ =>
    match close_database with
    | Except.error e => Except.ok (some e)
    | Except.ok _ => Except.ok none

/-- Projection: the `data` list of the response is the slice
`filtered[(page-1)*page_size : (page-1)*page_size + page_size]`. -/
theorem get_subscriptions_paginated_data_eq (page page_size : Nat)
    (status search : Option String) :
    (get_subscriptions_paginated page page_size status search).data.data =
      ((filteredSubscriptions status search).drop ((page - 1) * page_size)).take page_size :=
  rfl

/-- Projection: `totalCount` is the length of the filtered candidate set. -/
theorem get_subscriptions_paginated_totalCount_eq (page page_size : Nat)
    (status search : Option String) :
    (get_subscriptions_paginated page page_size status search).data.totalCount =
      (filteredSubscriptions status search).length :=
  rfl

/-- Projection: `totalPages` is `(total_items + page_size - 1) // page_size`. -/
theorem get_subscriptions_paginated_totalPages_eq (page page_size : Nat)
    (status search : Option String) :
    (get_subscriptions_paginated page page_size status search).data.totalPages =
      ((filteredSubscriptions status search).length + page_size - 1) / page_size :=
  rfl

/-- Ceiling division as the specification words it: `ceil(a / b)` on
naturals.  Stated separately from the code's `(a + b - 1) // b` so that the
two can be compared. -/
def ceilDivSpec (a b : Nat) : Nat :=
  if a % b = 0 then a / b else a / b + 1

/-- The code's rounding-up formula `(a + b - 1) / b` computes `ceil(a / b)`
for every positive divisor `b`. -/
theorem add_pred_div_eq_ceilDivSpec (a b : Nat) (hb : 1 ≤ b) :
    (a + b - 1) / b = ceilDivSpec a b := by
  have hb0 : 0 < b := hb
  have hmod : a % b < b := Nat.mod_lt a hb0
  have hdm : b * (a / b) + a % b = a := Nat.div_add_mod a b
  unfold ceilDivSpec
  by_cases h : a % b = 0
  · rw [if_pos h]
    have h1 : a + b - 1 = b - 1 + b * (a / b) := by omega
    rw [h1, Nat.add_mul_div_left _ _ hb0, Nat.div_eq_of_lt (by omega)]
    omega
  · rw [if_neg h]
    have hs : b * (a / b + 1) = b * (a / b) + b := Nat.mul_succ b (a / b)
    have h1 : a + b - 1 = a % b - 1 + b * (a / b + 1) := by omega
    rw [h1, Nat.add_mul_div_left _ _ hb0, Nat.div_eq_of_lt (by omega)]
    omega

end Flowlytix

namespace Flowlytix

set_option maxRecDepth 100000

/-- Claim C3: for every validated input, `totalPages` equals
`ceil(totalCount / pageSize)` where `totalCount` is the size of the filtered
set, and `totalPages = 0` if and only if `totalCount = 0`. -/
theorem C3_totalPages_ceil (page page_size : Nat) (status search : Option String)
    (h1 : 1 ≤ page_size) :
    (get_subscriptions_paginated page page_size status search).data.totalPages =
      ceilDivSpec
        (get_subscriptions_paginated page page_size status search).data.totalCount
        page_size ∧
    ((get_subscriptions_paginated page page_size status search).data.totalPages = 0 ↔
      (get_subscriptions_paginated page page_size status search).data.totalCount = 0) := by
  rw [get_subscriptions_paginated_totalPages_eq, get_subscriptions_paginated_totalCount_eq]
  have hb0 : 0 < page_size := h1
  refine ⟨add_pred_div_eq_ceilDivSpec _ _ h1, ?_⟩
  rw [Nat.div_eq_zero_iff hb0]
  omega

/-- Witness for C3 at `page = 1`, `pageSize = 10`, no filters. -/
theorem C3_totalPages_ceil_witness :
    1 ≤ 10 ∧
    ((get_subscriptions_paginated 1 10 none none).data.totalPages =
        ceilDivSpec (get_subscriptions_paginated 1 10 none none).data.totalCount 10 ∧
      ((get_subscriptions_paginated 1 10 none none).data.totalPages = 0 ↔
        (get_subscriptions_paginated 1 10 none none).data.totalCount = 0)) :=
  ⟨by decide, C3_totalPages_ceil 1 10 none none (by decide)⟩

/-- Counterexample to claim C2 as stated: at `page = 21`, `pageSize = 10`
with no filters, the requested page is not the last page (`totalPages = 20`,
so `page ≠ totalPages`), yet the returned data list is empty rather than of
length `pageSize`. -/
theorem C2_counterexample :
    ¬ ((get_subscriptions_paginated 21 10 none none).data.data.length ≤ 10 ∧
        (21 ≠ (get_subscriptions_paginated 21 10 none none).data.totalPages →
          (get_subscriptions_paginated 21 10 none none).data.data.length = 10)) := by
  decide

/-- Claim C2 (amended): for every `page ≥ 1` and `pageSize ∈ [1, 100]`, the
returned data list satisfies `len(data) ≤ pageSize`, and `len(data) =
pageSize` whenever the requested page lies strictly before the last page
(`page < totalPages`). -/
theorem C2_page_fill (page page_size : Nat) (status search : Option String)
    (hpage : 1 ≤ page) (h1 : 1 ≤ page_size) (h2 : page_size ≤ 100) :
    (get_subscriptions_paginated page page_size status search).data.data.length ≤ page_size ∧
    (page < (get_subscriptions_paginated page page_size status search).data.totalPages →
      (get_subscriptions_paginated page page_size status search).data.data.length = page_size) := by
  rw [get_subscriptions_paginated_data_eq, get_subscriptions_paginated_totalPages_eq]
  rw [List.length_take, List.length_drop]
  have hb0 : 0 < page_size := h1
  constructor
  · exact Nat.min_le_left _ _
  · intro hlt
    have h3 : page + 1 ≤ ((filteredSubscriptions status search).length + page_size - 1) / page_size :=
      hlt
    have h4 : (page + 1) * page_size ≤ (filteredSubscriptions status search).length + page_size - 1 :=
      (Nat.le_div_iff_mul_le hb0).mp h3
    have h5 : (page + 1) * page_size = (page - 1) * page_size + 2 * page_size := by
      have hp2 : page + 1 = page - 1 + 2 := by omega
      rw [hp2, Nat.add_mul]
    have h6 : page_size ≤ (filteredSubscriptions status search).length - (page - 1) * page_size := by
      omega
    exact Nat.min_eq_left h6

/-- Witness for the amended C2 at `page = 1`, `pageSize = 10`, no filters. -/
theorem C2_page_fill_witness :
    (1 ≤ 1 ∧ 1 ≤ 10 ∧ 10 ≤ 100) ∧
    ((get_subscriptions_paginated 1 10 none none).data.data.length ≤ 10 ∧
      (1 < (get_subscriptions_paginated 1 10 none none).data.totalPages →
        (get_subscriptions_paginated 1 10 none none).data.data.length = 10)) :=
  ⟨by decide, C2_page_fill 1 10 none none (by decide) (by decide) (by decide)⟩

/-- Claim C6: for every `page ≥ 1` with `(page - 1) * pageSize ≥
totalCount`, the call still returns normally with an empty data list, and
`totalCount` and `totalPages` are the same values as for any other page with
the same filters and page size. -/
theorem C6_out_of_range_page (page page_size : Nat) (status search : Option String)
    (hpage : 1 ≤ page)
    (h2 : (get_subscriptions_paginated page page_size status search).data.totalCount ≤
      (page - 1) * page_size) :
    (get_subscriptions_paginated page page_size status search).data.data = [] ∧
    ∀ page2 : Nat,
      (get_subscriptions_paginated page page_size status search).data.totalCount =
        (get_subscriptions_paginated page2 page_size status search).data.totalCount ∧
      (get_subscriptions_paginated page page_size status search).data.totalPages =
        (get_subscriptions_paginated page2 page_size status search).data.totalPages := by
  rw [get_subscriptions_paginated_totalCount_eq] at h2
  refine ⟨?_, fun page2 => ⟨rfl, rfl⟩⟩
  rw [get_subscriptions_paginated_data_eq, List.drop_eq_nil_of_le h2, List.take_nil]

/-- The status filter keeps a subsequence of its input, in order. -/
theorem applyStatusFilter_sublist (status : Option String) (l : List SubscriptionRecord) :
    List.Sublist (applyStatusFilter status l) l := by
  cases status with
  | none => exact List.Sublist.refl l
  | some st =>
    show List.Sublist (if st = "" then l else l.filter (fun r => r.status == st)) l
    by_cases h : st = ""
    · rw [if_pos h]
    · rw [if_neg h]
      exact List.filter_sublist l

/-- The search filter keeps a subsequence of its input, in order. -/
theorem applySearchFilter_sublist (search : Option String) (l : List SubscriptionRecord) :
    List.Sublist (applySearchFilter search l) l := by
  cases search with
  | none => exact List.Sublist.refl l
  | some q =>
    show List.Sublist
      (if q = "" then l
        else l.filter (fun r =>
          strContains (strLower r.customerName) (strLower q) ||
          strContains (strLower r.licenseKey) (strLower q))) l
    by_cases h : q = ""
    · rw [if_pos h]
    · rw [if_neg h]
      exact List.filter_sublist l

/-- Claim C4: with a non-empty `status` argument (and no search term), the
filtered set is exactly the candidate records whose `status` field equals
the argument under exact case-sensitive comparison, and the page returned is
the corresponding slice of it; a status outside
{active, expired, suspended} is not rejected but yields `totalCount = 0`. -/
theorem C4_status_filter (st : String) (page page_size : Nat) (h : st ≠ "") :
    (get_subscriptions_paginated page page_size (some st) none).data.data =
      ((mock_subscriptions.filter (fun r => r.status == st)).drop
        ((page - 1) * page_size)).take page_size ∧
    (get_subscriptions_paginated page page_size (some st) none).data.totalCount =
      (mock_subscriptions.filter (fun r => r.status == st)).length ∧
    (st ≠ "active" → st ≠ "expired" → st ≠ "suspended" →
      (get_subscriptions_paginated page page_size (some st) none).data.totalCount = 0) := by
  have hfs : filteredSubscriptions (some st) none =
      mock_subscriptions.filter (fun r => r.status == st) := by
    show (if st = "" then mock_subscriptions
        else mock_subscriptions.filter (fun r => r.status == st)) =
      mock_subscriptions.filter (fun r => r.status == st)
    rw [if_neg h]
  refine ⟨?_, ?_, ?_⟩
  · rw [get_subscriptions_paginated_data_eq, hfs]
  · rw [get_subscriptions_paginated_totalCount_eq, hfs]
  · intro ha he hs
    rw [get_subscriptions_paginated_totalCount_eq, hfs]
    have hall : ∀ r ∈ mock_subscriptions,
        r.status = "active" ∨ r.status = "expired" ∨ r.status = "suspended" := by
      decide
    have hnil : mock_subscriptions.filter (fun r => r.status == st) = [] := by
      rw [List.filter_eq_nil_iff]
      intro r hr
      simp only [beq_iff_eq]
      rcases hall r hr with h3 | h3 | h3 <;> rw [h3]
      · exact fun hc => ha hc.symm
      · exact fun hc => he hc.symm
      · exact fun hc => hs hc.symm
    rw [hnil]
    rfl

/-- Witness for C4 with the unrecognized status "canceled" at
`page = 1`, `pageSize = 10`. -/
theorem C4_status_filter_witness :
    ("canceled" ≠ "") ∧
    ((get_subscriptions_paginated 1 10 (some "canceled") none).data.data =
        ((mock_subscriptions.filter (fun r => r.status == "canceled")).drop
          ((1 - 1) * 10)).take 10 ∧
      (get_subscriptions_paginated 1 10 (some "canceled") none).data.totalCount =
        (mock_subscriptions.filter (fun r => r.status == "canceled")).length ∧
      ("canceled" ≠ "active" → "canceled" ≠ "expired" → "canceled" ≠ "suspended" →
        (get_subscriptions_paginated 1 10 (some "canceled") none).data.totalCount = 0)) :=
  ⟨by decide, C4_status_filter "canceled" 1 10 (by decide)⟩

/-- Counterexample to claim C5 as stated: the candidate set does contain a
record with id "150" (customerName "Customer 150"), but "Customer 150" does
not contain the substring "Customer 5" case-insensitively, and id "150" is
not among the records returned for `search = "Customer 5"` — the claim's
example ids 150..159 do not match. -/
theorem C5_counterexample :
    ("150" ∈ mock_subscriptions.map (fun r => r.id)) ∧
    (mkMockSubscription 150).customerName = "Customer 150" ∧
    strContains (strLower (mkMockSubscription 150).customerName)
      (strLower "Customer 5") = false ∧
    ("150" ∉
      (get_subscriptions_paginated 1 100 none (some "Customer 5")).data.data.map
        (fun r => r.id)) := by
  refine ⟨by decide, by decide, by decide, by decide⟩

/-- Claim C5 (amended): with a non-empty `search` argument (and no status
filter), the filtered set is exactly the candidate records where the
lower-cased search term is a substring of the lower-cased `customerName` or
of the lower-cased `licenseKey`; in particular, for `search = "Customer 5"`
the returned records are exactly ids 5, 50..59, every one matching on
`customerName` case-insensitively, and no `licenseKey` of the generated set
matches that term. -/
theorem C5_search_filter (q : String) (page page_size : Nat) (h : q ≠ "") :
    (get_subscriptions_paginated page page_size none (some q)).data.data =
      ((mock_subscriptions.filter (fun r =>
          strContains (strLower r.customerName) (strLower q) ||
          strContains (strLower r.licenseKey) (strLower q))).drop
        ((page - 1) * page_size)).take page_size ∧
    (get_subscriptions_paginated page page_size none (some q)).data.totalCount =
      (mock_subscriptions.filter (fun r =>
          strContains (strLower r.customerName) (strLower q) ||
          strContains (strLower r.licenseKey) (strLower q))).length ∧
    ((get_subscriptions_paginated 1 100 none (some "Customer 5")).data.data.map
        (fun r => r.id) =
        ["5", "50", "51", "52", "53", "54", "55", "56", "57", "58", "59"] ∧
      ∀ r ∈ (get_subscriptions_paginated 1 100 none (some "Customer 5")).data.data,
        strContains (strLower r.customerName) (strLower "Customer 5") = true ∧
        strContains (strLower r.licenseKey) (strLower "Customer 5") = false) := by
  have hfs : filteredSubscriptions none (some q) =
      mock_subscriptions.filter (fun r =>
        strContains (strLower r.customerName) (strLower q) ||
        strContains (strLower r.licenseKey) (strLower q)) := by
    show (if q = "" then mock_subscriptions
        else mock_subscriptions.filter (fun r =>
          strContains (strLower r.customerName) (strLower q) ||
          strContains (strLower r.licenseKey) (strLower q))) =
      mock_subscriptions.filter (fun r =>
        strContains (strLower r.customerName) (strLower q) ||
        strContains (strLower r.licenseKey) (strLower q))
    rw [if_neg h]
  refine ⟨?_, ?_, by decide, by decide⟩
  · rw [get_subscriptions_paginated_data_eq, hfs]
  · rw [get_subscriptions_paginated_totalCount_eq, hfs]

/-- Witness for the amended C5 with `search = "Customer 5"` at
`page = 1`, `pageSize = 100`. -/
theorem C5_search_filter_witness :
    ("Customer 5" ≠ "") ∧
    ((get_subscriptions_paginated 1 100 none (some "Customer 5")).data.data =
        ((mock_subscriptions.filter (fun r =>
            strContains (strLower r.customerName) (strLower "Customer 5") ||
            strContains (strLower r.licenseKey) (strLower "Customer 5"))).drop
          ((1 - 1) * 100)).take 100 ∧
      (get_subscriptions_paginated 1 100 none (some "Customer 5")).data.totalCount =
        (mock_subscriptions.filter (fun r =>
            strContains (strLower r.customerName) (strLower "Customer 5") ||
            strContains (strLower r.licenseKey) (strLower "Customer 5"))).length ∧
      ((get_subscriptions_paginated 1 100 none (some "Customer 5")).data.data.map
          (fun r => r.id) =
          ["5", "50", "51", "52", "53", "54", "55", "56", "57", "58", "59"] ∧
        ∀ r ∈ (get_subscriptions_paginated 1 100 none (some "Customer 5")).data.data,
          strContains (strLower r.customerName) (strLower "Customer 5") = true ∧
          strContains (strLower r.licenseKey) (strLower "Customer 5") = false)) :=
  ⟨by decide, C5_search_filter "Customer 5" 1 100 (by decide)⟩

/-- Claim C8: for every input, the returned data list is a contiguous block
of the filtered candidate set (some records before it, some after, nothing
reordered); the filtered set is itself an order-preserving subsequence of
the full candidate set, whose generation order is ascending id
"1", "2", ..., "200". -/
theorem C8_contiguous_order (page page_size : Nat) (status search : Option String) :
    (∃ pre post,
      pre ++ (get_subscriptions_paginated page page_size status search).data.data ++ post =
        filteredSubscriptions status search) ∧
    List.Sublist (filteredSubscriptions status search) mock_subscriptions ∧
    mock_subscriptions.map (fun r => r.id) =
      (List.range 200).map (fun k => toString (k + 1)) := by
  refine ⟨⟨(filteredSubscriptions status search).take ((page - 1) * page_size),
      ((filteredSubscriptions status search).drop ((page - 1) * page_size)).drop page_size,
      ?_⟩, ?_, by decide⟩
  · rw [get_subscriptions_paginated_data_eq, List.append_assoc, List.take_append_drop,
      List.take_append_drop]
  · exact List.Sublist.trans
      (applySearchFilter_sublist search (applyStatusFilter status mock_subscriptions))
      (applyStatusFilter_sublist status mock_subscriptions)

/-- Witness for C6 at `page = 21`, `pageSize = 10`, no filters. -/
theorem C6_out_of_range_page_witness :
    (1 ≤ 21 ∧ (get_subscriptions_paginated 21 10 none none).data.totalCount ≤ 20 * 10) ∧
    ((get_subscriptions_paginated 21 10 none none).data.data = [] ∧
      ∀ page2 : Nat,
        (get_subscriptions_paginated 21 10 none none).data.totalCount =
          (get_subscriptions_paginated page2 10 none none).data.totalCount ∧
        (get_subscriptions_paginated 21 10 none none).data.totalPages =
          (get_subscriptions_paginated page2 10 none none).data.totalPages) :=
  ⟨⟨by decide, by decide⟩,
    C6_out_of_range_page 21 10 none none (by decide) (by decide)⟩

/-- Claim C1: the call `listSubscriptions(page=1, pageSize=10, status=None,
search=None)` over the fixed 200-record candidate set returns exactly the
records with id "1" through "10" in generation order, with `totalCount =
200` and `totalPages = 20`. -/
theorem C1_first_page_default :
    (get_subscriptions_paginated 1 10 none none).data.data = mock_subscriptions.take 10 ∧
    (get_subscriptions_paginated 1 10 none none).data.data.map (fun r => r.id) =
      ["1", "2", "3", "4", "5", "6", "7", "8", "9", "10"] ∧
    (get_subscriptions_paginated 1 10 none none).data.totalCount = 200 ∧
    (get_subscriptions_paginated 1 10 none none).data.totalPages = 20 := by
  refine ⟨by decide, by decide, by decide, by decide⟩

/-- Claim C7: the endpoint is deterministic — two calls with identical
`(page, pageSize, status, search)` arguments return identical results; the
candidate-set generation is a pure function of the loop index. -/
theorem C7_deterministic (p1 ps1 p2 ps2 : Nat) (s1 q1 s2 q2 : Option String)
    (hp : p1 = p2) (hps : ps1 = ps2) (hs : s1 = s2) (hq : q1 = q2) :
    get_subscriptions_paginated p1 ps1 s1 q1 = get_subscriptions_paginated p2 ps2 s2 q2 := by
  subst hp; subst hps; subst hs; subst hq; rfl

/-- Witness for C7 at `page = 1`, `pageSize = 10`, no filters. -/
theorem C7_deterministic_witness :
    (1 = 1 ∧ 10 = 10 ∧ (none : Option String) = none ∧ (none : Option String) = none) ∧
    get_subscriptions_paginated 1 10 none none = get_subscriptions_paginated 1 10 none none :=
  ⟨⟨rfl, rfl, rfl, rfl⟩, C7_deterministic 1 10 1 10 none none none none rfl rfl rfl rfl⟩

/-- Claim C9: in the lifespan manager, a startup exception (database
initialization) is re-raised and aborts service start, while a shutdown
exception (closing database connections) is caught and logged and does not
propagate. -/
theorem C9_lifespan_errors (ε : Type) (e err : ε) (close_database : Except ε Unit) :
    lifespan ε (Except.error e) close_database = Except.error e ∧
    lifespan ε (Except.ok ()) (Except.error err) = Except.ok (some err) ∧
    lifespan ε (Except.ok ()) (Except.ok ()) = Except.ok none :=
  ⟨rfl, rfl, rfl⟩

/-- Claim C10: an empty-string `status` or `search` is falsy in Python, so
the corresponding filter is skipped and the result equals that of the call
with the parameter absent. -/
theorem C10_empty_string_falsy (page page_size : Nat) (status search : Option String) :
    get_subscriptions_paginated page page_size (some "") search =
      get_subscriptions_paginated page page_size none search ∧
    get_subscriptions_paginated page page_size status (some "") =
      get_subscriptions_paginated page page_size status none := by
  constructor
  · rfl
  · cases status with
    | none => rfl
    | some st =>
      unfold get_subscriptions_paginated filteredSubscriptions applySearchFilter
      rfl

end Flowlytix
